import Mathlib

/-!
Verification of the polynomial background-fitting engine of threeML
(`threeML/utils/time_series/polynomial.py`) and of its virtual-observatory
catalog query front-end (`threeML/catalogs/VirtualObservatoryCatalog.py`).

Numbers are modelled over `ℚ` (the Python code computes with floats; the
claims under study are about the exact arithmetic the code performs, not
about rounding). A NaN entry of a numpy array is modelled as `none` in a
`List (Option ℚ)`. A Python exception escaping a function is modelled with
`Option`/`Except` return types.
-/

namespace ThreeML

/-- Covariance matrices are modelled as functions of two indices; the code
only ever reads entries inside the `(degree+1) × (degree+1)` block. -/
abbrev Cov : Type := ℕ → ℕ → ℚ

/-- The all-zero covariance matrix, `np.zeros((degree+1, degree+1))`. -/
def zeroCov : Cov := fun _ _ => 0

/-- The `Polynomial` object of `polynomial.py`. Fields mirror the instance
attributes set in `__init__`: `_coefficients`, `_degree` (a Python `int`,
which is `-1` for an empty coefficient list, hence `ℤ`), `_cov_matrix`, and
the optional `_integral_polynomial` attribute (absent when the object was
constructed with `is_integral=True`). The `_i_plus_1` array is derived from
the stored `degree` field wherever it is used. -/
inductive Polynomial : Type where
  | mk (coefficients : List ℚ) (degree : ℤ) (cov : Cov)
       (integralPolynomial : Option Polynomial)

/-- Accessor for the `_coefficients` attribute. -/
def Polynomial.coefficients : Polynomial → List ℚ
  | .mk c _ _ _ => c

/-- Accessor for the `_degree` attribute (the `degree` property). -/
def Polynomial.degree : Polynomial → ℤ
  | .mk _ d _ _ => d

/-- Accessor for the `_cov_matrix` attribute (the `covariance_matrix`
property). -/
def Polynomial.cov : Polynomial → Cov
  | .mk _ _ m _ => m

/-- Accessor for the `_integral_polynomial` attribute; `none` models the
attribute being absent (constructed with `is_integral=True`). -/
def Polynomial.integralPolynomial : Polynomial → Option Polynomial
  | .mk _ _ _ ip => ip

/-- The antiderivative coefficient list built in `__init__` and in
`__set_coefficient`: `integral_coeff = [0]` extended with
`coefficients[i-1] / float(i)` for `i in range(1, degree + 1 + 1)`.
Reindexed by `j = i - 1`, that is `0 ::` the list of
`coefficients[j] / (j+1)` for `j` in `0 .. degree`. A read past the end of
the Python list would raise `IndexError`; callers guard for that. -/
def integralCoeffList (degree : ℤ) (coefficients : List ℚ) : List ℚ :=
  0 :: (List.range (degree + 1).toNat).map
    (fun j => coefficients.getD j 0 / ((j : ℚ) + 1))

/-- `Polynomial(coefficients, is_integral=True)`: stores the coefficients,
degree `len(coefficients) - 1` and a zero covariance matrix, and does not
derive any further antiderivative. -/
def mkIntegralPolynomial (coefficients : List ℚ) : Polynomial :=
  .mk coefficients ((coefficients.length : ℤ) - 1) zeroCov none

/-- `Polynomial.__init__`: when `is_integral` is false, additionally builds
`self._integral_polynomial = Polynomial(integral_coeff, is_integral=True)`. -/
def mkPolynomial (coefficients : List ℚ) (is_integral : Bool) : Polynomial :=
  if is_integral then
    mkIntegralPolynomial coefficients
  else
    .mk coefficients ((coefficients.length : ℤ) - 1) zeroCov
      (some (mkIntegralPolynomial
        (integralCoeffList ((coefficients.length : ℤ) - 1) coefficients)))

/-- `Polynomial.__call__`: Horner evaluation by iterating the reversed
coefficient list, `result = result * x + coefficient`. -/
def hornerEval (coefficients : List ℚ) (x : ℚ) : ℚ :=
  coefficients.reverse.foldl (fun result coefficient => result * x + coefficient) 0

/-- Evaluation of a `Polynomial` object (its `__call__`). -/
def Polynomial.eval (p : Polynomial) (x : ℚ) : ℚ :=
  hornerEval p.coefficients x

/-- `Polynomial.set_covariace_matrix` (sic): replaces `_cov_matrix`. -/
def Polynomial.set_covariace_matrix (p : Polynomial) (m : Cov) : Polynomial :=
  match p with
  | .mk c d _ ip => .mk c d m ip

/-- `Polynomial.__set_coefficient` (the `coefficients` property setter):
stores the new value and rebuilds `_integral_polynomial` using the *stored*
`self._degree` (which the setter does not update). When the new vector is
shorter than `degree + 1` the Python list indexing `val[i-1]` raises
`IndexError`, modelled by `none`. -/
def Polynomial.set_coefficients (p : Polynomial) (val : List ℚ) : Option Polynomial :=
  if (p.degree + 1).toNat ≤ val.length then
    some (.mk val p.degree p.cov
      (some (mkIntegralPolynomial (integralCoeffList p.degree val))))
  else
    none

/-- `Polynomial.integral(xmin, xmax)`: evaluates the cached antiderivative at
both endpoints. `none` models the `AttributeError` raised when
`_integral_polynomial` is absent. -/
def Polynomial.integral (p : Polynomial) (xmin xmax : ℚ) : Option ℚ :=
  p.integralPolynomial.map (fun q => q.eval xmax - q.eval xmin)

/-- `Polynomial._eval_basis(x)` as a function of the entry index `i`:
`(1.0 / self._i_plus_1) * np.power(x, self._i_plus_1)` has entry
`(1/(i+1)) * x^(i+1)`; the vector has `(degree + 1)` entries. -/
def evalBasisEntry (x : ℚ) (i : ℕ) : ℚ :=
  (1 / ((i : ℚ) + 1)) * x ^ (i + 1)

/-- The squared quantity computed by `Polynomial.integral_error`:
`c = _eval_basis(xmax) - _eval_basis(xmin)`, `tmp = c.dot(cov)`,
`err2 = tmp.dot(c)`. -/
def integralErr2 (p : Polynomial) (xmin xmax : ℚ) : ℚ :=
  ∑ j ∈ Finset.range (p.degree + 1).toNat,
    (∑ i ∈ Finset.range (p.degree + 1).toNat,
      (evalBasisEntry xmax i - evalBasisEntry xmin i) * p.cov i j) *
    (evalBasisEntry xmax j - evalBasisEntry xmin j)

/-- `Polynomial.integral_error(xmin, xmax)`: `np.sqrt(err2)`. -/
noncomputable def Polynomial.integral_error (p : Polynomial) (xmin xmax : ℚ) : ℝ :=
  Real.sqrt (integralErr2 p xmin xmax)

/-! ### Reference definitions taken from the spec's wording -/

/-- Direct Horner evaluation of a coefficient list, the spec's reference
implementation for `Polynomial.__call__`. -/
def hornerRef (coefficients : List ℚ) (x : ℚ) : ℚ :=
  match coefficients with
  | [] => 0
  | a :: rest => a + x * hornerRef rest x

/-- The spec's antiderivative `F` of a coefficient list `c`: constant term
`0` and coefficient `c[i-1]/i` at each power `i` for `1 ≤ i ≤ n+1`. -/
def Fspec (c : List ℚ) (x : ℚ) : ℚ :=
  ∑ i ∈ Finset.range c.length, c.getD i 0 / ((i : ℚ) + 1) * x ^ (i + 1)

/-- The spec's antiderivative coefficient list of a vector `v`: constant
term `0`, coefficient `v[i-1]/i` at power `i`. -/
def antiderivCoeffs (v : List ℚ) : List ℚ :=
  0 :: (List.range v.length).map (fun j => v.getD j 0 / ((j : ℚ) + 1))

/-- The spec's basis vector for error propagation:
`c_i = (xmax^(i+1) - xmin^(i+1)) / (i+1)`. -/
def specBasisEntry (xmin xmax : ℚ) (i : ℕ) : ℚ :=
  (xmax ^ (i + 1) - xmin ^ (i + 1)) / ((i : ℚ) + 1)

/-! ### Basic evaluation lemmas -/

lemma hornerEval_nil (x : ℚ) : hornerEval [] x = 0 := rfl

lemma hornerEval_cons (a : ℚ) (t : List ℚ) (x : ℚ) :
    hornerEval (a :: t) x = hornerEval t x * x + a := by
  simp [hornerEval, List.foldl_concat]

lemma hornerEval_eq_hornerRef (c : List ℚ) (x : ℚ) :
    hornerEval c x = hornerRef c x := by
  induction c with
  | nil => rfl
  | cons a t ih =>
    rw [hornerEval_cons, hornerRef, ih]
    ring

/-! ### The fit drivers `polyfit` and `unbinned_polyfit`

The drivers hand the data to external collaborators (`XYLike`,
`JointLikelihood`, `BayesianAnalysis`, `UnbinnedPoissonLike`, the minuit /
grid minimizers and the emcee sampler) that live elsewhere in the
repository. They are modelled abstractly, from the spec, as oracles bundled
in a context structure; the control flow around them (NaN filtering, the
sparse-data short circuit, parameter initialisation, the retry policy and
the packaging of the result into a `Polynomial`) is translated from
`polynomial.py`. -/

/-- `nan_mask = np.isnan(y)` followed by `y = y[~nan_mask]`,
`x = x[~nan_mask]`, `exposure = exposure[~nan_mask]`: keeps the rows whose
`y` entry is a number. The three same-length arrays are zipped into rows
`(x, y, exposure)`. -/
def filterNaN (x : List ℚ) (y : List (Option ℚ)) (exposure : List ℚ) :
    List (ℚ × ℚ × ℚ) :=
  (x.zip (y.zip exposure)).filterMap
    (fun r => r.2.1.map (fun v => (r.1, v, r.2.2)))

/-- `_grade_model_lookup = (Line, Line, Quadratic, Cubic, Quadratic)`,
recorded by the number of parameters of each shape (Line has 2, Quadratic
3, Cubic 4). -/
def gradeModelLookup : List ℕ := [2, 2, 3, 4, 3]

/-- Number of free parameters of the model for a grade: the shape's
parameter count, minus one for grade 0 where `shape.b` is fixed. -/
def nFreeParams (grade : ℕ) : ℕ :=
  if grade = 0 then gradeModelLookup.getD grade 0 - 1
  else gradeModelLookup.getD grade 0

/-- `avg = np.mean(y / exposure)` over the NaN-filtered rows. -/
def meanRate (rows : List (ℚ × ℚ × ℚ)) : ℚ :=
  ((rows.map (fun r => r.2.1 / r.2.2)).sum) / (rows.length : ℚ)

/-- Initial free-parameter values in the binned MLE branch: the
normalization is set to `avg`, every higher-order free parameter to `0`. -/
def mleInitParams (rows : List (ℚ × ℚ × ℚ)) (grade : ℕ) : List ℚ :=
  meanRate rows :: List.replicate (nFreeParams grade - 1) 0

/-- Initial free-parameter values in the binned Bayesian branch: `1` for
the normalization, `1e-2` for the others. -/
def bayesInitParams (grade : ℕ) : List ℚ :=
  1 :: List.replicate (nFreeParams grade - 1) (1 / 100)

/-- Modelled from the spec: the external fitting machinery used by the
binned driver — `JointLikelihood.fit` (which either succeeds with new
parameter values and a covariance matrix, or raises), the emcee-based
`BayesianAnalysis` (whose `sample`/`restore_median_fit` always produce
parameter values and a covariance estimate), and `XYLike.get_log_like`
evaluated at the final parameter values. Each oracle is a deterministic
function of the NaN-filtered data rows and of the initial parameter
values; `mleFit` also takes the attempt index, and a raising fit leaves
the model parameters unchanged. -/
structure FitCtx : Type where
  mleFit : List (ℚ × ℚ × ℚ) → List ℚ → ℕ → Option (List ℚ × Cov)
  bayesFit : List (ℚ × ℚ × ℚ) → List ℚ → List ℚ × Cov
  logLike : List (ℚ × ℚ × ℚ) → List ℚ → ℚ

/-- The `try: jl.fit() except: try: jl.fit() except: pass` block of the
binned driver: attempt 0, on failure attempt 1 with identical settings, on
a second failure keep the fallback (the parameter values the model
currently holds, with the covariance never populated). Also returns the
number of fit attempts that were made. -/
def fitWithRetry (attempt : ℕ → Option (List ℚ × Cov))
    (fallback : List ℚ × Cov) : (List ℚ × Cov) × ℕ :=
  match attempt 0 with
  | some r => (r, 1)
  | none =>
    match attempt 1 with
    | some r => (r, 2)
    | none => (fallback, 2)

/-- Body of `polyfit` after the NaN filtering, as a function of the
filtered rows: the `y > 0` sparse-data short circuit, then the MLE or
Bayesian branch, packaging the final parameter values and covariance into
a `Polynomial` and returning it with `-xy.get_log_like()`. -/
def polyfitKernel (ctx : FitCtx) (rows : List (ℚ × ℚ × ℚ)) (grade : ℕ)
    (bayes : Bool) : Polynomial × ℚ :=
  if rows.countP (fun r => decide (0 < r.2.1)) = 0 then
    (mkPolynomial (List.replicate (grade + 1) 0) false, 0)
  else if bayes then
    let r := ctx.bayesFit rows (bayesInitParams grade)
    ((mkPolynomial r.1 false).set_covariace_matrix r.2, -(ctx.logLike rows r.1))
  else
    let init := mleInitParams rows grade
    let r := (fitWithRetry (ctx.mleFit rows init) (init, zeroCov)).1
    ((mkPolynomial r.1 false).set_covariace_matrix r.2, -(ctx.logLike rows r.1))

/-- `polyfit(x, y, grade, exposure, bayes)`. -/
def polyfit (ctx : FitCtx) (x : List ℚ) (y : List (Option ℚ)) (grade : ℕ)
    (exposure : List ℚ) (bayes : Bool) : Polynomial × ℚ :=
  polyfitKernel ctx (filterNaN x y exposure) grade bayes

/-- Number of `jl.fit` attempts the binned driver makes on given filtered
rows, following the same control flow as `polyfitKernel`: none on the
sparse-data short circuit, none in the Bayesian branch, and whatever the
retry block uses in the MLE branch. -/
def polyfitKernelAttempts (ctx : FitCtx) (rows : List (ℚ × ℚ × ℚ))
    (grade : ℕ) (bayes : Bool) : ℕ :=
  if rows.countP (fun r => decide (0 < r.2.1)) = 0 then 0
  else if bayes then 0
  else (fitWithRetry (ctx.mleFit rows (mleInitParams rows grade))
    (mleInitParams rows grade, zeroCov)).2

/-- Number of `jl.fit` attempts `polyfit` makes on the raw arrays. -/
def polyfitAttempts (ctx : FitCtx) (x : List ℚ) (y : List (Option ℚ))
    (grade : ℕ) (exposure : List ℚ) (bayes : Bool) : ℕ :=
  polyfitKernelAttempts ctx (filterNaN x y exposure) grade bayes

/-- `EventObservation(events, exposure, t_start, t_stop)` of the unbinned
driver. -/
structure EventObservation : Type where
  events : List ℚ
  exposure : ℚ
  t_start : ℚ
  t_stop : ℚ

/-- Modelled from the spec: the external fitting machinery used by the
unbinned driver — the grid+minuit `JointLikelihood.fit` (attempt-indexed,
may raise), the emcee-based `BayesianAnalysis`, and
`UnbinnedPoissonLike.get_log_like` at the final parameter values. -/
structure UnbinnedFitCtx : Type where
  mleFit : EventObservation → List ℚ → ℕ → Option (List ℚ × Cov)
  bayesFit : EventObservation → List ℚ → List ℚ × Cov
  logLike : EventObservation → List ℚ → ℚ

/-- The retry block of the unbinned driver: attempt 0, on failure attempt 1,
on a second failure `none` (the code returns the zero polynomial from inside
the second `except`). -/
def fitWithRetryUnbinned (attempt : ℕ → Option (List ℚ × Cov)) :
    Option (List ℚ × Cov) :=
  match attempt 0 with
  | some r => some r
  | none => attempt 1

/-- `unbinned_polyfit(events, grade, t_start, t_stop, exposure, bayes)`:
empty event lists short-circuit to the zero polynomial; otherwise the MLE
branch initialises the normalization to `10` (others `0`) and falls back to
the zero polynomial when both fit attempts raise, and the Bayesian branch
initialises to `1` and `0.1`. -/
def unbinned_polyfit (ctx : UnbinnedFitCtx) (events : List ℚ) (grade : ℕ)
    (t_start t_stop exposure : ℚ) (bayes : Bool) : Polynomial × ℚ :=
  if events.length = 0 then
    (mkPolynomial (List.replicate (grade + 1) 0) false, 0)
  else
    let observation : EventObservation := ⟨events, exposure, t_start, t_stop⟩
    if bayes then
      let r := ctx.bayesFit observation
        (1 :: List.replicate (nFreeParams grade - 1) (1 / 10))
      ((mkPolynomial r.1 false).set_covariace_matrix r.2,
        -(ctx.logLike observation r.1))
    else
      let init : List ℚ := 10 :: List.replicate (nFreeParams grade - 1) 0
      match fitWithRetryUnbinned (ctx.mleFit observation init) with
      | some r =>
        ((mkPolynomial r.1 false).set_covariace_matrix r.2,
          -(ctx.logLike observation r.1))
      | none => (mkPolynomial (List.replicate (grade + 1) 0) false, 0)

/-! ### The virtual-observatory catalog front-end

`VirtualObservatoryCatalog` delegates to abstract collaborators: the
`_vo_dataframe` pandas frame (set by subclasses), the `apply_format` and
`_source_is_valid` hooks (`NotImplementedError` in the base class), all
modelled as fields over an abstract result type `α`. -/

/-- State and collaborators of a `VirtualObservatoryCatalog` instance, over
an abstract dataframe/table type `α`: `voDataframe` is
`self._vo_dataframe.query`, `applyFormat` and `sourceIsValid` are the
subclass hooks, `lastQueryResults` is `self._last_query_results`. -/
structure VOCatalog (α : Type) : Type where
  voDataframe : String → α
  applyFormat : α → α
  sourceIsValid : String → Bool
  lastQueryResults : Option α

/-- `VirtualObservatoryCatalog.query_sources(*sources)`: filters the names
through `_source_is_valid`; with at least one valid name it queries the
dataframe, stores the raw results in `_last_query_results` and returns the
formatted table; otherwise it evaluates `RuntimeError(...)` *without
raising it* and falls through, returning `None`. The `Except` codomain
records that no exception escapes. -/
def query_sources {α : Type} (cat : VOCatalog α) (sources : List String) :
    Except String (Option α × VOCatalog α) :=
  let valid_sources := sources.filter cat.sourceIsValid
  if valid_sources.isEmpty then
    Except.ok (none, cat)
  else
    let query_string := String.intercalate " | "
      (valid_sources.map (fun s => "(index == \"" ++ s ++ "\")"))
    let query_results := cat.voDataframe query_string
    Except.ok (some (cat.applyFormat query_results),
      { cat with lastQueryResults := some query_results })

/-! ### Summation form of Horner evaluation -/

lemma hornerRef_eq_sum (c : List ℚ) (x : ℚ) :
    hornerRef c x = ∑ i ∈ Finset.range c.length, c.getD i 0 * x ^ i := by
  induction c with
  | nil => simp [hornerRef]
  | cons a t ih =>
    rw [hornerRef, ih]
    rw [List.length_cons, Finset.sum_range_succ']
    simp only [List.getD_cons_succ, List.getD_cons_zero, pow_zero, mul_one]
    have hmul : x * ∑ i ∈ Finset.range t.length, t.getD i 0 * x ^ i
        = ∑ i ∈ Finset.range t.length, t.getD i 0 * x ^ (i + 1) := by
      rw [Finset.mul_sum]
      exact Finset.sum_congr rfl (fun i _ => by ring)
    rw [hmul]
    exact add_comm _ _

lemma hornerEval_zero_cons_map (f : ℕ → ℚ) (n : ℕ) (x : ℚ) :
    hornerEval (0 :: (List.range n).map f) x
      = ∑ i ∈ Finset.range n, f i * x ^ (i + 1) := by
  rw [hornerEval_eq_hornerRef, hornerRef_eq_sum]
  simp only [List.length_cons, List.length_map, List.length_range]
  rw [Finset.sum_range_succ']
  simp only [List.getD_cons_succ, List.getD_cons_zero, pow_zero, mul_one,
    zero_mul, add_zero]
  refine Finset.sum_congr rfl (fun i hi => ?_)
  congr 1
  rw [List.getD_eq_getElem?_getD, List.getElem?_map,
    List.getElem?_range (Finset.mem_range.mp hi)]
  rfl

lemma filterNaN_nil_left (y : List (Option ℚ)) (e : List ℚ) :
    filterNaN [] y e = [] := rfl

lemma filterNaN_cons_some (a v c : ℚ) (x : List ℚ) (y : List (Option ℚ))
    (e : List ℚ) :
    filterNaN (a :: x) (some v :: y) (c :: e)
      = (a, v, c) :: filterNaN x y e := rfl

lemma filterNaN_cons_none (a c : ℚ) (x : List ℚ) (y : List (Option ℚ))
    (e : List ℚ) :
    filterNaN (a :: x) (none :: y) (c :: e) = filterNaN x y e := rfl

lemma filterNaN_eraseIdx :
    ∀ (i : ℕ) (x : List ℚ) (y : List (Option ℚ)) (e : List ℚ),
      x.length = y.length → e.length = y.length → y[i]? = some none →
      filterNaN (x.eraseIdx i) (y.eraseIdx i) (e.eraseIdx i)
        = filterNaN x y e := by
  intro i
  induction i with
  | zero =>
    intro x y e hx he hy
    cases y with
    | nil => simp at hy
    | cons b y' =>
      have hb : b = none := by simpa using hy
      subst hb
      cases x with
      | nil => simp at hx
      | cons a x' =>
        cases e with
        | nil => simp at he
        | cons c e' =>
          simp only [List.eraseIdx_cons_zero, filterNaN_cons_none]
  | succ i ih =>
    intro x y e hx he hy
    cases y with
    | nil => simp at hy
    | cons b y' =>
      cases x with
      | nil => simp at hx
      | cons a x' =>
        cases e with
        | nil => simp at he
        | cons c e' =>
          have hy' : y'[i]? = some none := by
            simpa using hy
          have hx' : x'.length = y'.length := by
            simpa using hx
          have he' : e'.length = y'.length := by
            simpa using he
          simp only [List.eraseIdx_cons_succ]
          cases b with
          | none =>
            rw [filterNaN_cons_none, filterNaN_cons_none, ih x' y' e' hx' he' hy']
          | some v =>
            rw [filterNaN_cons_some, filterNaN_cons_some, ih x' y' e' hx' he' hy']

/-! ### The claims -/

/-- C1: for every `Polynomial` and all `xmin`, `xmax`,
`integral_error(xmin, xmax)` equals `sqrt(cᵗ · Σ · c)` where `c` is the
vector with `c_i = (xmax^(i+1) - xmin^(i+1)) / (i+1)` for `i` in
`0..degree` and `Σ` is the covariance matrix. -/
theorem integral_error_eq_spec (p : Polynomial) (xmin xmax : ℚ) :
    p.integral_error xmin xmax
      = Real.sqrt (((∑ j ∈ Finset.range (p.degree + 1).toNat,
          (∑ i ∈ Finset.range (p.degree + 1).toNat,
            specBasisEntry xmin xmax i * p.cov i j)
            * specBasisEntry xmin xmax j : ℚ) : ℝ)) := by
  have hc : ∀ i : ℕ, evalBasisEntry xmax i - evalBasisEntry xmin i
      = specBasisEntry xmin xmax i := by
    intro i
    unfold evalBasisEntry specBasisEntry
    ring
  have herr : integralErr2 p xmin xmax
      = ∑ j ∈ Finset.range (p.degree + 1).toNat,
          (∑ i ∈ Finset.range (p.degree + 1).toNat,
            specBasisEntry xmin xmax i * p.cov i j)
            * specBasisEntry xmin xmax j := by
    unfold integralErr2
    refine Finset.sum_congr rfl (fun j _ => ?_)
    rw [hc j]
    congr 1
    exact Finset.sum_congr rfl (fun i _ => by rw [hc i])
  unfold Polynomial.integral_error
  rw [herr]

/-- C2: for every `Polynomial` constructed from coefficients `c` (not
marked `is_integral`) and all `xmin`, `xmax`, `integral(xmin, xmax)`
equals `F(xmax) - F(xmin)` where `F` is the antiderivative with constant
term `0` and coefficient `c[i-1]/i` at each power `i`. -/
theorem integral_eq_antideriv_difference (c : List ℚ) (xmin xmax : ℚ) :
    (mkPolynomial c false).integral xmin xmax
      = some (Fspec c xmax - Fspec c xmin) := by
  have hev : ∀ x : ℚ,
      (mkIntegralPolynomial
        (integralCoeffList ((c.length : ℤ) - 1) c)).eval x = Fspec c x := by
    intro x
    show hornerEval (integralCoeffList ((c.length : ℤ) - 1) c) x = Fspec c x
    unfold integralCoeffList
    have hn : (((c.length : ℤ) - 1) + 1).toNat = c.length := by omega
    rw [hn, hornerEval_zero_cons_map]
    rfl
  have hip : (mkPolynomial c false).integralPolynomial
      = some (mkIntegralPolynomial
          (integralCoeffList ((c.length : ℤ) - 1) c)) := rfl
  unfold Polynomial.integral
  rw [hip]
  simp [hev]

/-- C3: evaluating the `Polynomial` built from a coefficient vector `c` at
`x` (its call operation) equals direct Horner evaluation of `c` at `x`; in
particular `Polynomial([1,2,3])` evaluated at `2` equals `17`. -/
theorem polynomial_call_eq_horner :
    (∀ (c : List ℚ) (x : ℚ), (mkPolynomial c false).eval x = hornerRef c x) ∧
    (mkPolynomial [1, 2, 3] false).eval 2 = 17 := by
  constructor
  · intro c x
    show hornerEval c x = hornerRef c x
    exact hornerEval_eq_hornerRef c x
  · show hornerEval [1, 2, 3] 2 = 17
    rw [hornerEval_eq_hornerRef]
    norm_num [hornerRef]

/-- C9: constructing a `Polynomial` with `is_integral=True` constructs no
further nested antiderivative: its integral-polynomial attribute is absent,
and the antiderivative a non-integral construction derives is itself one
level deep (its own attribute is absent). -/
theorem is_integral_one_level_deep (c : List ℚ) :
    (mkPolynomial c true).integralPolynomial = none ∧
    ∃ q, (mkPolynomial c false).integralPolynomial = some q ∧
      q.integralPolynomial = none :=
  ⟨rfl, _, rfl, rfl⟩

/-- C7: `unbinned_polyfit` with an empty event list returns the
zero-polynomial sentinel (all `grade+1` coefficients `0`, likelihood `0`)
immediately, regardless of the other arguments. -/
theorem unbinned_polyfit_empty_events (ctx : UnbinnedFitCtx) (grade : ℕ)
    (t_start t_stop exposure : ℚ) (bayes : Bool) :
    unbinned_polyfit ctx [] grade t_start t_stop exposure bayes
      = (mkPolynomial (List.replicate (grade + 1) 0) false, 0) := rfl

/-- C10: when no given source name passes the validity check,
`query_sources` returns `None` without raising (the `RuntimeError` it
constructs is never raised) and leaves the last-query-results state — in
fact the whole catalog state — unchanged. -/
theorem query_sources_no_valid_source {α : Type} (cat : VOCatalog α)
    (sources : List String)
    (h : ∀ s ∈ sources, cat.sourceIsValid s = false) :
    query_sources cat sources = Except.ok (none, cat) := by
  have hfil : sources.filter cat.sourceIsValid = [] :=
    List.filter_eq_nil_iff.mpr (fun a ha => by simp [h a ha])
  unfold query_sources
  rw [hfil]
  rfl

/-- C4 as stated is false on the code: `__set_coefficient` rebuilds the
antiderivative with the *stored* `self._degree`, which it does not update,
so assigning a longer coefficient vector to a degree-1 polynomial yields a
truncated antiderivative `[0, 1, 1]` instead of the antiderivative
`[0, 1, 1, 1]` of the new vector `[1, 2, 3]`. -/
theorem set_coefficients_stale_degree_cex :
    ¬ (((mkPolynomial [1, 2] false).set_coefficients [1, 2, 3]).bind
          (fun q => q.integralPolynomial.map Polynomial.coefficients)
        = some (antiderivCoeffs [1, 2, 3])) := by
  have h1 : ((mkPolynomial [1, 2] false).set_coefficients [1, 2, 3]).bind
      (fun q => q.integralPolynomial.map Polynomial.coefficients)
      = some (integralCoeffList 1 [1, 2, 3]) := rfl
  have h2 : (integralCoeffList 1 [1, 2, 3]).length = 3 := rfl
  have h3 : (antiderivCoeffs [1, 2, 3]).length = 4 := rfl
  rw [h1]
  intro h
  have hl := congrArg List.length (Option.some.inj h)
  rw [h2, h3] at hl
  exact absurd hl (by norm_num)

/-- C4 (amended): for every `Polynomial` `p` and every new coefficient
vector `v` *of length `p.degree + 1`*, after assigning
`p.coefficients = v` (the sole mutation path) the cached integral
polynomial is regenerated as exactly the antiderivative (constant term 0,
coefficient `v[i-1]/i` at power `i`) of the new coefficients `v`, itself
marked as an integral (no nested antiderivative). The amendment restricts
the vector's length because the setter reuses the stored degree. -/
theorem set_coefficients_rebuilds_integral (p : Polynomial) (v : List ℚ)
    (h : (v.length : ℤ) = p.degree + 1) :
    p.set_coefficients v
      = some (.mk v p.degree p.cov
          (some (mkIntegralPolynomial (antiderivCoeffs v)))) := by
  have htn : (p.degree + 1).toNat = v.length := by omega
  have hcoeff : integralCoeffList p.degree v = antiderivCoeffs v := by
    unfold integralCoeffList antiderivCoeffs
    rw [htn]
  unfold Polynomial.set_coefficients
  rw [if_pos htn.le, hcoeff]

/-- Witness for the amended C4 at a concrete polynomial and vector. -/
theorem set_coefficients_rebuilds_integral_witness :
    (mkPolynomial [1, 2] false).set_coefficients [3, 4]
      = some (.mk [3, 4] (mkPolynomial [1, 2] false).degree
          (mkPolynomial [1, 2] false).cov
          (some (mkIntegralPolynomial (antiderivCoeffs [3, 4])))) :=
  set_coefficients_rebuilds_integral (mkPolynomial [1, 2] false) [3, 4]
    (by norm_num [mkPolynomial, mkIntegralPolynomial, Polynomial.degree])

/-- Concrete fit context whose MLE fit oracle raises on every attempt;
shared by the witnesses of the `polyfit` claims. -/
def ctxFail : FitCtx :=
  ⟨fun _ _ _ => none, fun _ _ => ([], zeroCov), fun _ _ => 0⟩

lemma fitWithRetry_attempts_of_first_fail
    (attempt : ℕ → Option (List ℚ × Cov)) (fallback : List ℚ × Cov)
    (h : attempt 0 = none) : (fitWithRetry attempt fallback).2 = 2 := by
  unfold fitWithRetry
  rw [h]
  cases h1 : attempt 1 <;> rfl

lemma fitWithRetry_result_of_first_fail
    (attempt : ℕ → Option (List ℚ × Cov)) (fallback : List ℚ × Cov)
    (h : attempt 0 = none) :
    (fitWithRetry attempt fallback).1 = (attempt 1).getD fallback := by
  unfold fitWithRetry
  rw [h]
  cases h1 : attempt 1 <;> rfl

/-- C5: in MLE mode, when the data survive the sparse-data check and the
first fit attempt raises, the binned driver retries exactly once (two
attempts total, the second with identical settings); if the second attempt
succeeds its result is packaged and returned, and if it also fails
`polyfit` does not raise but proceeds with the parameter values the model
currently holds (the initial values, covariance never populated). In all
cases the binned path returns a `Polynomial`. -/
theorem polyfit_mle_retry_policy (ctx : FitCtx) (x : List ℚ)
    (y : List (Option ℚ)) (grade : ℕ) (exposure : List ℚ)
    (hpos : (filterNaN x y exposure).countP
      (fun r => decide (0 < r.2.1)) ≠ 0)
    (hfail : ctx.mleFit (filterNaN x y exposure)
        (mleInitParams (filterNaN x y exposure) grade) 0 = none) :
    polyfitAttempts ctx x y grade exposure false = 2 ∧
    (∀ r, ctx.mleFit (filterNaN x y exposure)
        (mleInitParams (filterNaN x y exposure) grade) 1 = some r →
      polyfit ctx x y grade exposure false
        = ((mkPolynomial r.1 false).set_covariace_matrix r.2,
            -(ctx.logLike (filterNaN x y exposure) r.1))) ∧
    (ctx.mleFit (filterNaN x y exposure)
        (mleInitParams (filterNaN x y exposure) grade) 1 = none →
      polyfit ctx x y grade exposure false
        = ((mkPolynomial (mleInitParams (filterNaN x y exposure) grade)
              false).set_covariace_matrix zeroCov,
            -(ctx.logLike (filterNaN x y exposure)
                (mleInitParams (filterNaN x y exposure) grade)))) := by
  have hmain : polyfit ctx x y grade exposure false
      = ((mkPolynomial ((fitWithRetry
            (ctx.mleFit (filterNaN x y exposure)
              (mleInitParams (filterNaN x y exposure) grade))
            (mleInitParams (filterNaN x y exposure) grade, zeroCov)).1).1
            false).set_covariace_matrix
          ((fitWithRetry
            (ctx.mleFit (filterNaN x y exposure)
              (mleInitParams (filterNaN x y exposure) grade))
            (mleInitParams (filterNaN x y exposure) grade, zeroCov)).1).2,
          -(ctx.logLike (filterNaN x y exposure)
            ((fitWithRetry
              (ctx.mleFit (filterNaN x y exposure)
                (mleInitParams (filterNaN x y exposure) grade))
              (mleInitParams (filterNaN x y exposure) grade, zeroCov)).1).1)) := by
    unfold polyfit polyfitKernel
    rw [if_neg hpos]
    rfl
  refine ⟨?_, ?_, ?_⟩
  · unfold polyfitAttempts polyfitKernelAttempts
    rw [if_neg hpos]
    exact fitWithRetry_attempts_of_first_fail _ _ hfail
  · intro r h1
    rw [hmain, fitWithRetry_result_of_first_fail _ _ hfail, h1]
    rfl
  · intro h1
    rw [hmain, fitWithRetry_result_of_first_fail _ _ hfail, h1]
    rfl

/-- Witness for C5: a context whose fit attempts all raise, on one positive
count bin. -/
theorem polyfit_mle_retry_policy_witness :
    polyfitAttempts ctxFail [1] [some 1] 0 [1] false = 2 ∧
    (∀ r, ctxFail.mleFit (filterNaN [1] [some 1] [1])
        (mleInitParams (filterNaN [1] [some 1] [1]) 0) 1 = some r →
      polyfit ctxFail [1] [some 1] 0 [1] false
        = ((mkPolynomial r.1 false).set_covariace_matrix r.2,
            -(ctxFail.logLike (filterNaN [1] [some 1] [1]) r.1))) ∧
    (ctxFail.mleFit (filterNaN [1] [some 1] [1])
        (mleInitParams (filterNaN [1] [some 1] [1]) 0) 1 = none →
      polyfit ctxFail [1] [some 1] 0 [1] false
        = ((mkPolynomial (mleInitParams (filterNaN [1] [some 1] [1]) 0)
              false).set_covariace_matrix zeroCov,
            -(ctxFail.logLike (filterNaN [1] [some 1] [1])
                (mleInitParams (filterNaN [1] [some 1] [1]) 0)))) :=
  polyfit_mle_retry_policy ctxFail [1] [some 1] 0 [1]
    (by rw [filterNaN_cons_some]
        norm_num [List.countP_cons, List.countP_nil, filterNaN_nil_left])
    rfl

/-- C6: for every grade in 0..4 and every input, if after dropping NaN
entries of `y` no remaining sample has `y > 0`, `polyfit` returns a
`Polynomial` with `grade+1` all-zero coefficients together with likelihood
`0.0`, without attempting any fit. -/
theorem polyfit_no_positive_counts (ctx : FitCtx) (x : List ℚ)
    (y : List (Option ℚ)) (exposure : List ℚ) (grade : ℕ) (bayes : Bool)
    (_hgrade : grade ≤ 4)
    (hzero : (filterNaN x y exposure).countP
      (fun r => decide (0 < r.2.1)) = 0) :
    polyfit ctx x y grade exposure bayes
        = (mkPolynomial (List.replicate (grade + 1) 0) false, 0) ∧
      polyfitAttempts ctx x y grade exposure bayes = 0 := by
  constructor
  · unfold polyfit polyfitKernel
    rw [if_pos hzero]
  · unfold polyfitAttempts polyfitKernelAttempts
    rw [if_pos hzero]

/-- Witness for C6 on all-zero (and partly NaN) counts at grade 3. -/
theorem polyfit_no_positive_counts_witness :
    polyfit ctxFail [1, 2] [some 0, none] 3 [1, 1] false
        = (mkPolynomial (List.replicate (3 + 1) 0) false, 0) ∧
      polyfitAttempts ctxFail [1, 2] [some 0, none] 3 [1, 1] false = 0 :=
  polyfit_no_positive_counts ctxFail [1, 2] [some 0, none] [1, 1] 3 false
    (by norm_num)
    (by rw [filterNaN_cons_some, filterNaN_cons_none]
        norm_num [List.countP_cons, List.countP_nil, filterNaN_nil_left])

/-- C8: `polyfit` on arrays whose `y` has a NaN at index `i` behaves
identically to `polyfit` with that index removed in advance from `x`, `y`
and `exposure` — same result and same number of fit attempts. -/
theorem polyfit_nan_mask_equiv (ctx : FitCtx) (x : List ℚ)
    (y : List (Option ℚ)) (exposure : List ℚ) (grade : ℕ) (bayes : Bool)
    (i : ℕ) (hx : x.length = y.length) (he : exposure.length = y.length)
    (hy : y[i]? = some none) :
    polyfit ctx x y grade exposure bayes
        = polyfit ctx (x.eraseIdx i) (y.eraseIdx i) grade
            (exposure.eraseIdx i) bayes ∧
      polyfitAttempts ctx x y grade exposure bayes
        = polyfitAttempts ctx (x.eraseIdx i) (y.eraseIdx i) grade
            (exposure.eraseIdx i) bayes := by
  have hf := filterNaN_eraseIdx i x y exposure hx he hy
  constructor
  · unfold polyfit
    rw [hf]
  · unfold polyfitAttempts
    rw [hf]

/-- Witness for C8: a NaN at index 1 of a two-bin dataset. -/
theorem polyfit_nan_mask_equiv_witness :
    polyfit ctxFail [1, 2] [some 1, none] 0 [3, 4] false
        = polyfit ctxFail ([1, 2].eraseIdx 1) ([some 1, none].eraseIdx 1) 0
            ([3, 4].eraseIdx 1) false ∧
      polyfitAttempts ctxFail [1, 2] [some 1, none] 0 [3, 4] false
        = polyfitAttempts ctxFail ([1, 2].eraseIdx 1)
            ([some 1, none].eraseIdx 1) 0 ([3, 4].eraseIdx 1) false :=
  polyfit_nan_mask_equiv ctxFail [1, 2] [some 1, none] [3, 4] 0 false 1
    rfl rfl rfl

/-- Concrete catalog over `ℕ`-coded tables whose validity check rejects
every name. -/
def catRejectAll : VOCatalog ℕ :=
  ⟨fun _ => 0, id, fun _ => false, none⟩

/-- Witness for C10 at a concrete catalog and source list. -/
theorem query_sources_no_valid_source_witness :
    query_sources catRejectAll ["Crab"] = Except.ok (none, catRejectAll) :=
  query_sources_no_valid_source catRejectAll ["Crab"]
    (by intro s _; rfl)

end ThreeML
